import Mathlib

/-!
Verification of the garage-sale organizer's image intake and AI analysis
pipeline (`backend/server.js` image upload route, `backend/ai-service.js`,
`backend/database.js`).

The JavaScript source is shallowly embedded: the response-interpretation
logic (`content.match` of a greedy brace span followed by `JSON.parse`),
the per-backend analysis result construction, the upload route's
reconciliation of AI suggestions into a listing, and the provider-settings
state of `AIService` are all translated into executable Lean definitions,
and the spec's claims are settled as theorems about those definitions.
-/

namespace GarageSale

/-! ### JSON values

Model of the values produced by `JSON.parse` in the Node runtime.
A number literal is kept exactly as `mantissa × 10 ^ exp10` (the decimal
literals of interest are exact in IEEE doubles, and no claim computes
with the numeric value). -/

inductive Json where
  | null
  | bool (b : Bool)
  | num (mantissa : Int) (exp10 : Int)
  | str (s : String)
  | arr (items : List Json)
  | obj (members : List (String × Json))

/-- The `\x7b` character, written out so that brace characters never appear
directly in the development. -/
def lbrace : Char := Char.ofNat 123

/-- The `\x7d` character. -/
def rbrace : Char := Char.ofNat 125

/-- JSON's insignificant whitespace (the exact set `JSON.parse` accepts). -/
def jsonWs (c : Char) : Bool := c = ' ' || c = Char.ofNat 9 || c = Char.ofNat 10 || c = Char.ofNat 13

def skipJsonWs : List Char → List Char
  | [] => []
  | c :: cs => if jsonWs c then skipJsonWs cs else c :: cs

/-- Numeric value of a digit run (most significant first). -/
def digitsVal (ds : List Char) : Nat :=
  ds.foldl (fun n c => 10 * n + (c.toNat - 48)) 0

def hexDigitVal (c : Char) : Option Nat :=
  if '0' ≤ c && c ≤ '9' then some (c.toNat - 48)
  else if 'a' ≤ c && c ≤ 'f' then some (c.toNat - 97 + 10)
  else if 'A' ≤ c && c ≤ 'F' then some (c.toNat - 65 + 10)
  else none

/-- Single-character escapes accepted after a backslash in a JSON string. -/
def jsonEscape (c : Char) : Option Char :=
  if c = '"' then some '"'
  else if c = Char.ofNat 92 then some (Char.ofNat 92)
  else if c = '/' then some '/'
  else if c = 'b' then some (Char.ofNat 8)
  else if c = 'f' then some (Char.ofNat 12)
  else if c = 'n' then some (Char.ofNat 10)
  else if c = 'r' then some (Char.ofNat 13)
  else if c = 't' then some (Char.ofNat 9)
  else none

/-- Body of a JSON string after the opening quote.  Raw control characters
are rejected, as `JSON.parse` does.  (`\uXXXX` escapes are decoded to the
scalar value; surrogate-pair recombination is not modelled, as no claim
involves astral-plane text.) -/
def parseJstr (acc : List Char) : List Char → Option (String × List Char)
  | [] => none
  | c :: cs =>
    if c = '"' then some (String.mk acc.reverse, cs)
    else if c = Char.ofNat 92 then
      match cs with
      | [] => none
      | e :: cs' =>
        if e = 'u' then
          match cs' with
          | h1 :: h2 :: h3 :: h4 :: cs'' =>
            match hexDigitVal h1, hexDigitVal h2, hexDigitVal h3, hexDigitVal h4 with
            | some a, some b, some c4, some d =>
              parseJstr (Char.ofNat (((a * 16 + b) * 16 + c4) * 16 + d) :: acc) cs''
            | _, _, _, _ => none
          | _ => none
        else
          match jsonEscape e with
          | some ch => parseJstr (ch :: acc) cs'
          | none => none
    else if c.toNat < 32 then none
    else parseJstr (c :: acc) cs

/-- A JSON number token: `-? (0 | [1-9][0-9]*) (. [0-9]+)? ([eE][+-]?[0-9]+)?`,
evaluated exactly as a decimal mantissa and power-of-ten exponent. -/
def parseJnum (cs : List Char) : Option ((Int × Int) × List Char) :=
  let (neg, cs1) : Bool × List Char :=
    match cs with
    | c :: r => if c = '-' then (true, r) else (false, cs)
    | [] => (false, cs)
  let (ids, cs2) := cs1.span (fun c => c.isDigit)
  match ids with
  | [] => none
  | d0 :: drest =>
    if d0 = '0' ∧ drest ≠ [] then none
    else
      let fracStep : Option (Nat × Nat × List Char) :=
        match cs2 with
        | c :: r =>
          if c = '.' then
            let (fds, cs3) := r.span (fun c => c.isDigit)
            if fds = [] then none else some (digitsVal fds, fds.length, cs3)
          else some (0, 0, cs2)
        | [] => some (0, 0, cs2)
      match fracStep with
      | none => none
      | some (fv, fl, cs3) =>
        let expStep : Option (Int × List Char) :=
          match cs3 with
          | c :: r =>
            if c = 'e' ∨ c = 'E' then
              let (esign, r1) : Int × List Char :=
                match r with
                | s :: rr => if s = '+' then (1, rr) else if s = '-' then (-1, rr) else (1, r)
                | [] => (1, r)
              let (eds, r2) := r1.span (fun c => c.isDigit)
              if eds = [] then none else some (esign * (digitsVal eds : Int), r2)
            else some (0, cs3)
          | [] => some (0, cs3)
        match expStep with
        | none => none
        | some (ev, cs4) =>
          let mantNat : Nat := digitsVal ids * 10 ^ fl + fv
          let mant : Int := if neg then -(mantNat : Int) else (mantNat : Int)
          some ((mant, ev - (fl : Int)), cs4)

mutual

/-- One JSON value (leading whitespace allowed), with the unconsumed rest.
Recursion is on a fuel counter; `jsonParse` supplies enough fuel for any
input. -/
def parseJval : Nat → List Char → Option (Json × List Char)
  | 0, _ => none
  | fuel + 1, cs =>
    match skipJsonWs cs with
    | [] => none
    | c :: cs' =>
      if c = '"' then
        match parseJstr [] cs' with
        | some (s, r) => some (.str s, r)
        | none => none
      else if c = lbrace then
        match skipJsonWs cs' with
        | d :: r => if d = rbrace then some (.obj [], r) else parseJmembers fuel [] (skipJsonWs cs')
        | [] => none
      else if c = '[' then
        match skipJsonWs cs' with
        | d :: r => if d = ']' then some (.arr [], r) else parseJitems fuel [] (skipJsonWs cs')
        | [] => none
      else if c = 't' then
        match cs' with
        | 'r' :: 'u' :: 'e' :: r => some (.bool true, r)
        | _ => none
      else if c = 'f' then
        match cs' with
        | 'a' :: 'l' :: 's' :: 'e' :: r => some (.bool false, r)
        | _ => none
      else if c = 'n' then
        match cs' with
        | 'u' :: 'l' :: 'l' :: r => some (.null, r)
        | _ => none
      else
        match parseJnum (c :: cs') with
        | some ((m, e), r) => some (.num m e, r)
        | none => none

/-- Members of an object after at least one member is known to follow. -/
def parseJmembers : Nat → List (String × Json) → List Char → Option (Json × List Char)
  | 0, _, _ => none
  | fuel + 1, acc, cs =>
    match skipJsonWs cs with
    | c :: r =>
      if c = '"' then
        match parseJstr [] r with
        | some (k, r1) =>
          match skipJsonWs r1 with
          | d :: r2 =>
            if d = ':' then
              match parseJval fuel r2 with
              | some (v, r3) =>
                match skipJsonWs r3 with
                | e :: r4 =>
                  if e = ',' then parseJmembers fuel ((k, v) :: acc) r4
                  else if e = rbrace then some (.obj ((k, v) :: acc).reverse, r4)
                  else none
                | [] => none
              | none => none
            else none
          | [] => none
        | none => none
      else none
    | [] => none

/-- Elements of an array after at least one element is known to follow. -/
def parseJitems : Nat → List Json → List Char → Option (Json × List Char)
  | 0, _, _ => none
  | fuel + 1, acc, cs =>
    match parseJval fuel cs with
    | some (v, r) =>
      match skipJsonWs r with
      | e :: r2 =>
        if e = ',' then parseJitems fuel (v :: acc) r2
        else if e = ']' then some (.arr (v :: acc).reverse, r2)
        else none
      | [] => none
    | none => none

end

/-- `JSON.parse`: one value, then only whitespace to the end of input. -/
def jsonParse (cs : List Char) : Option Json :=
  match parseJval (cs.length + 1) cs with
  | some (v, rest) => if skipJsonWs rest = [] then some v else none
  | none => none

/-- JS property access on a parsed object (`analysis.title` etc.).
`JSON.parse` lets a duplicated key's last occurrence win, hence the
reversed lookup; access on a non-object or a missing key is `undefined`,
modelled as `none`. -/
def jsonMember (j : Json) (k : String) : Option Json :=
  match j with
  | .obj kvs => (kvs.reverse.find? (fun kv => kv.1 = k)).map (fun kv => kv.2)
  | _ => none

/-! ### Greedy brace-span extraction

`content.match(/\x7b[\s\S]*\x7d/)` (ai-service.js lines 171 and 323):
the match, when it exists, runs from the first `\x7b` to the last `\x7d`
after it. -/

/-- Prefix of `cs` through its last `\x7d` (callers ensure one exists). -/
def braceTail (cs : List Char) : List Char :=
  match cs with
  | [] => []
  | c :: rest =>
    if rest.contains rbrace then c :: braceTail rest
    else if c = rbrace then [c]
    else []

/-- The regex match `/\x7b[\s\S]*\x7d/` on `cs`: from the first `\x7b`
that is followed by a later `\x7d`, through the last `\x7d`. -/
def extractBraceSpan (cs : List Char) : Option (List Char) :=
  match cs with
  | [] => none
  | c :: rest =>
    if c = lbrace then
      if rest.contains rbrace then some (c :: braceTail rest) else none
    else extractBraceSpan rest

/-- Whether the regex `/\x7b[\s\S]*\x7d/` matches at all. -/
def hasBraceSpan (cs : List Char) : Bool :=
  match cs with
  | [] => false
  | c :: rest => if c = lbrace then rest.contains rbrace else hasBraceSpan rest

/-- The response-interpretation step shared by both backends: extract the
greedy brace span and `JSON.parse` it; `none` when there is no span or the
span does not parse. -/
def interpretResponse (content : String) : Option Json :=
  match extractBraceSpan content.data with
  | some span => jsonParse span
  | none => none

/-! ### Provider Client results (`backend/ai-service.js`)

The objects returned by `_analyzeImageOpenAI` / `_analyzeImageGemini`.
A success always carries the parsed analysis plus `timing` and `usage`
(lines 183-195, 328-333); the failure shapes differ per exit path, so the
failure constructor records each of `raw_response`, `timing.total_ms`,
`timing.api_call_ms` and `usage` as optional, exactly as the source
includes or omits them. -/

structure Usage where
  prompt_tokens : Nat
  completion_tokens : Nat
  total_tokens : Nat
deriving DecidableEq

structure Timing where
  total_ms : Nat
  api_call_ms : Nat
deriving DecidableEq

inductive AIResponse where
  | success (analysis : Json) (timing : Timing) (usage : Usage)
  | failure (error : String) (raw_response : Option String)
      (timing_total : Option Nat) (timing_api_call : Option Nat) (usage : Option Usage)

/-- Environment outcome of the awaited OpenAI chat-completion request:
either a reply (`response.choices[0].message.content`, with the optional
`response.usage` counts) or a thrown error.  The two durations are the
wall-clock `total` and `api_call` times measured by the source. -/
inductive ProviderCall where
  | ok (content : String) (usage : Option (Nat × Nat)) (tTotal tApi : Nat)
  | err (msg : String) (tTotal : Nat)

/-- Environment outcome of the awaited Gemini `generateContent` request. -/
inductive GemCall where
  | ok (content : String) (tTotal tApi : Nat)
  | err (msg : String)

/-- `_analyzeImageOpenAI` (ai-service.js lines 68-251), from the point the
provider call resolves: token counts default to 0 when the backend sends
no `usage`; the reply is interpreted by the greedy brace match plus
`JSON.parse`; a missing span or unparseable span yields the
`Could not parse AI response as JSON` failure that retains the full raw
reply together with timing and usage; a thrown provider error yields a
failure carrying only `timing.total_ms`. -/
def analyzeImageOpenAI (call : ProviderCall) : AIResponse :=
  match call with
  | .ok content usage tTotal tApi =>
    let requestTokens := (usage.map Prod.fst).getD 0
    let responseTokens := (usage.map Prod.snd).getD 0
    let u : Usage := ⟨requestTokens, responseTokens, requestTokens + responseTokens⟩
    match interpretResponse content with
    | some analysis => .success analysis ⟨tTotal, tApi⟩ u
    | none =>
      .failure "Could not parse AI response as JSON" (some content)
        (some tTotal) (some tApi) (some u)
  | .err msg tTotal => .failure msg none (some tTotal) none none

/-- Estimated token count for a text of `n` characters:
`Math.ceil(n / 4)` (ai-service.js lines 308-309 and 501-502). -/
def estimateTokens (n : Nat) : Nat := (n + 3) / 4

/-- `_analyzeImageGemini` (ai-service.js lines 253-357), from the point the
provider call resolves.  The fixed instruction prompt is a parameter (the
source inlines it as a long literal; only its length is ever used).  Token
counts are estimated from character lengths.  A parse failure returns only
`error` and `raw_response` — no timing and no usage (line 345); a thrown
provider error returns only `error` (line 355). -/
def analyzeImageGemini (prompt : String) (call : GemCall) : AIResponse :=
  match call with
  | .ok content tTotal tApi =>
    let requestTokens := estimateTokens prompt.length
    let responseTokens := estimateTokens content.length
    match interpretResponse content with
    | some analysis =>
      .success analysis ⟨tTotal, tApi⟩
        ⟨requestTokens, responseTokens, requestTokens + responseTokens⟩
    | none => .failure "Could not parse AI response as JSON" (some content) none none none
  | .err msg => .failure msg none none none none

/-- Result of `_generateDescriptionGemini` (ai-service.js lines 474-528):
on success the trimmed text plus timing and the estimated usage; on a
thrown error only the message. -/
inductive GenResult where
  | success (description : String) (timing : Timing) (usage : Usage)
  | failure (error : String)

/-- `_generateDescriptionGemini`, from the point the provider call
resolves; usage is always the character-length estimate. -/
def generateDescriptionGemini (prompt : String) (call : GemCall) : GenResult :=
  match call with
  | .ok content tTotal tApi =>
    let promptTokens := estimateTokens prompt.length
    let responseTokens := estimateTokens content.length
    .success content.trim ⟨tTotal, tApi⟩ ⟨promptTokens, responseTokens, promptTokens + responseTokens⟩
  | .err msg => .failure msg

/-- The usage record a text-generation result reports, if any. -/
def genUsage : GenResult → Option Usage
  | .success _ _ u => some u
  | .failure _ => none

/-- The analysis attached to a result, if it is a success. -/
def outcomeAnalysis : AIResponse → Option Json
  | .success a _ _ => some a
  | .failure _ _ _ _ _ => none

/-- The retained `raw_response` of a result, if any. -/
def rawResponseOf : AIResponse → Option String
  | .success _ _ _ => none
  | .failure _ raw _ _ _ => raw

/-- Whether a result is a failure. -/
def isFailure : AIResponse → Bool
  | .success _ _ _ => false
  | .failure _ _ _ _ _ => true

/-- The usage record a result reports, if any. -/
def reportedUsage : AIResponse → Option Usage
  | .success _ _ u => some u
  | .failure _ _ _ _ u => u

/-- The property claimed of every analysis result: it carries a timing
record with both the total and the provider-call duration, and a usage
record. -/
def carriesTimingAndUsage : AIResponse → Bool
  | .success _ _ _ => true
  | .failure _ _ tT tA u => tT.isSome && tA.isSome && u.isSome

/-! ### Listing records and reconciliation (server.js image upload route)

An `items` row per `database/init.sql`: `title TEXT NOT NULL`,
`description TEXT`, `price REAL NOT NULL DEFAULT 0`, `category TEXT`.
Nullable columns are `Option String`; SQL `NULL` is `none`. -/

structure Item where
  title : String
  description : Option String
  price : Rat
  category : Option String
deriving DecidableEq

/-- `!item.title || item.title === 'New Item'` (route line 377): with a
`NOT NULL` text column, JS falsiness is exactly the empty string. -/
def titleUnset (t : String) : Bool := t = "" || t = "New Item"

/-- `!item.description` (line 380): `NULL` or empty. -/
def descriptionUnset (d : Option String) : Bool :=
  match d with
  | none => true
  | some s => s = ""

/-- `!item.price || item.price === 0` (line 383): with a `NOT NULL` real
column both disjuncts reduce to a zero price. -/
def priceUnset (p : Rat) : Bool := p = 0

/-- `!item.category || item.category === 'Miscellaneous'` (line 386). -/
def categoryUnset (c : Option String) : Bool :=
  match c with
  | none => true
  | some s => s = "" || s = "Miscellaneous"

/-- The `updates` object the route assembles (lines 376-388).  The outer
`Option` is key presence (`'title' in updates`); the inner `Option Json`
is the JS value assigned, `none` when the parsed analysis lacks the member
(JS `undefined`). -/
structure ItemUpdates where
  title : Option (Option Json)
  description : Option (Option Json)
  price : Option (Option Json)
  category : Option (Option Json)

/-- Lines 376-388: each field of `updates` is set to the analysis member
exactly when the listing's current value is its sentinel unset state. -/
def reconcileUpdates (item : Item) (analysis : Json) : ItemUpdates where
  title := if titleUnset item.title then some (jsonMember analysis "title") else none
  description :=
    if descriptionUnset item.description then some (jsonMember analysis "description") else none
  price := if priceUnset item.price then some (jsonMember analysis "estimated_price") else none
  category := if categoryUnset item.category then some (jsonMember analysis "category") else none

/-- `Object.keys(updates).length > 0` (line 390). -/
def hasUpdates (u : ItemUpdates) : Bool :=
  u.title.isSome || u.description.isSome || u.price.isSome || u.category.isSome

/-- The `ai_analysis` JSON the route stores on the image row and echoes in
the response body: on success the analysis together with timing and usage
(lines 369-373), on failure the error information with whatever raw
response, timing and usage the result carried (lines 404-410). -/
inductive StoredAnalysis where
  | ok (analysis : Json) (timing : Timing) (usage : Usage)
  | err (error : String) (raw_response : Option String)
      (timing_total : Option Nat) (timing_api_call : Option Nat) (usage : Option Usage)

/-- Observable effects of one run of `POST /api/items/:id/images`
(server.js lines 307-483) for an existing listing, past multer's
type/size filter.  `updateCall` is the argument of the `db.updateItem`
call when one is issued — the route's only write to the listing — so
`updateCall = none` states that the listing row (its four fields and its
`updated_at` stamp) is untouched.  `originalKept`/`thumbKept` record
which of the two written files still exist when the response is sent. -/
structure UploadEffects where
  status : Nat
  imageCreated : Bool
  updateCall : Option ItemUpdates
  aiAnalysis : Option StoredAnalysis
  originalKept : Bool
  thumbKept : Bool
  providerInvoked : Bool

/-- The upload route, as a function of its environment: the verified
listing row, whether `sharp` produced the thumbnail (`createThumbnail`
swallows its own errors and returns `null`, lines 135-150), the analysis
result when `aiService.isInitialized()` (passing `none` models an
unconfigured provider, line 352), and whether `db.createImage` succeeds
(line 443; on a throw the catch block unlinks only the original upload
file, lines 460-482). -/
def uploadImage (item : Item) (thumbOk : Bool) (ai : Option AIResponse) (dbSaveOk : Bool) :
    UploadEffects :=
  let (updateCall, stored, invoked) :
      Option ItemUpdates × Option StoredAnalysis × Bool :=
    match ai with
    | none => (none, none, false)
    | some (.success a t u) =>
      let upd := reconcileUpdates item a
      (if hasUpdates upd then some upd else none, some (.ok a t u), true)
    | some (.failure e raw tT tA u) => (none, some (.err e raw tT tA u), true)
  if dbSaveOk then
    { status := 201, imageCreated := true, updateCall := updateCall, aiAnalysis := stored,
      originalKept := true, thumbKept := thumbOk, providerInvoked := invoked }
  else
    { status := 500, imageCreated := false, updateCall := updateCall, aiAnalysis := none,
      originalKept := false, thumbKept := thumbOk, providerInvoked := invoked }

/-- Modelled from the spec: the `skipAI` flag of the upload route.  The
`backend/server.js` variant carrying it is not under `src/` — only its
callers (`frontend/src/services/api.ts` posts `?skipAI=true`) and the
repository's restoration log remain, the latter quoting the gate as
`if (aiService.isInitialized() && !skipAI)`.  Per the spec (§4.5), when
the flag is set the asset is stored and the ImageAsset created with no
provider invocation and no reconciliation; otherwise behaviour is the
upload route above. -/
def uploadImageSkipAI (item : Item) (thumbOk : Bool) (aiConfigured : Bool) (r : AIResponse)
    (dbSaveOk : Bool) (skipAI : Bool) : UploadEffects :=
  uploadImage item thumbOk (if aiConfigured && !skipAI then some r else none) dbSaveOk

/-! ### Provider configuration state (`AIService`, ai-service.js lines 7-52)

For the in-flight-call claim the service's mutable fields and the points
at which a call reads them are made explicit.  Under Node's run-to-
completion semantics a concurrent `setProvider` can only run while the
call is suspended at an `await`; `_analyzeImageOpenAI` and
`_analyzeImageGemini` read `this.provider`, `this.model` and the client
object before their first `await`, but both re-read `this.model` after
the provider call resolves, for `calculateCost` (lines 151 and 311). -/

inductive ProviderKind where
  | openai
  | gemini
deriving DecidableEq

/-- `this.openai` / `this.gemini` are client objects; only identity
matters here, so each is represented by its API key, `none` for `null`. -/
structure SvcState where
  provider : ProviderKind
  model : String
  openaiClient : Option String
  geminiClient : Option String
deriving DecidableEq

/-- `initialize(config)` (lines 15-33): each branch requires its key and
falls back to the provider's default model; otherwise no change. -/
def svcInitialize (s : SvcState) (provider : ProviderKind)
    (openAIKey geminiKey : Option String) (model : Option String) : SvcState :=
  match provider, openAIKey with
  | .openai, some key =>
    { s with openaiClient := some key, provider := .openai, model := model.getD "gpt-4o" }
  | _, _ =>
    match provider, geminiKey with
    | .gemini, some key =>
      { s with geminiClient := some key, provider := .gemini, model := model.getD "gemini-2.5-pro" }
    | _, _ => s

/-- `setProvider(provider, apiKey, model)` (lines 35-43). -/
def svcSetProvider (s : SvcState) (provider : ProviderKind) (apiKey : Option String)
    (model : Option String) : SvcState :=
  match provider, apiKey with
  | .openai, some key => svcInitialize s .openai (some key) none model
  | .gemini, some key => svcInitialize s .gemini none (some key) model
  | _, _ => s

/-- `isInitialized()` (lines 45-52). -/
def svcIsInitialized (s : SvcState) : Bool :=
  match s.provider with
  | .openai => s.openaiClient.isSome
  | .gemini => s.geminiClient.isSome

/-- A concurrent settings update: one `setProvider` invocation. -/
structure SettingsUpdate where
  provider : ProviderKind
  apiKey : Option String
  model : Option String

/-- The client object selected by the dispatched branch. -/
def svcClientOf (s : SvcState) : Option String :=
  match s.provider with
  | .openai => s.openaiClient
  | .gemini => s.geminiClient

/-- The provider-configuration reads of one `analyzeImage` call:
the provider, model and client used for the provider request, and the
model name used for the post-call cost computation. -/
structure CallTrace where
  requestProvider : ProviderKind
  requestModel : String
  requestClient : Option String
  costModel : String
deriving DecidableEq

/-- One `analyzeImage` call against state `s0`, with the `setProvider`
updates that run while the call is suspended at its provider-request
`await`.  Before that first `await` the call reads `this.provider`
(line 59/61), `this.model` and the client object (lines 96-142 for
OpenAI, 296-299 for Gemini); these reads are a single synchronous segment
under the event loop, so they see `s0`.  After the `await` resolves, the
cost computation re-reads `this.model` (line 151 / 311), which by then
reflects the interleaved updates.  Returns `none` when `isInitialized()`
fails (the call throws before dispatch, lines 55-57). -/
def analyzeCallTrace (s0 : SvcState) (updates : List SettingsUpdate) : Option CallTrace :=
  if svcIsInitialized s0 then
    let reqProvider := s0.provider
    let reqModel := s0.model
    let reqClient := svcClientOf s0
    let s1 := updates.foldl (fun s u => svcSetProvider s u.provider u.apiKey u.model) s0
    some { requestProvider := reqProvider, requestModel := reqModel,
           requestClient := reqClient, costModel := s1.model }
  else none

/-! ### Supporting lemmas -/

/-- When the regex has no match, extraction returns nothing. -/
theorem extractBraceSpan_eq_none {cs : List Char} (h : hasBraceSpan cs = false) :
    extractBraceSpan cs = none := by
  induction cs with
  | nil => rfl
  | cons c rest ih =>
    unfold hasBraceSpan at h
    unfold extractBraceSpan
    by_cases hc : c = lbrace
    · simp only [hc, if_true] at h ⊢
      have h' : rbrace ∉ rest := by simpa using h
      simp [h']
    · simp only [hc, if_false] at h ⊢
      exact ih h

/-- `hasBraceSpan` decides exactly the informal condition "the text has an
opening brace with a closing brace somewhere after it". -/
theorem hasBraceSpan_iff {cs : List Char} :
    hasBraceSpan cs = true ↔
      ∃ i j, i < j ∧ cs.get? i = some lbrace ∧ cs.get? j = some rbrace := by
  induction cs with
  | nil => simp [hasBraceSpan]
  | cons c rest ih =>
    unfold hasBraceSpan
    by_cases hc : c = lbrace
    · subst hc
      simp only [if_true]
      constructor
      · intro h
        have hmem : rbrace ∈ rest := by
          simpa using h
        obtain ⟨⟨k, hk⟩, hval⟩ := List.mem_iff_get.mp hmem
        refine ⟨0, k + 1, Nat.succ_pos k, rfl, ?_⟩
        show rest.get? k = some rbrace
        rw [List.get?_eq_get hk, hval]
      · rintro ⟨i, j, hij, _, hj⟩
        match j, hij with
        | j' + 1, _ =>
          have : rest.get? j' = some rbrace := hj
          have hmem : rbrace ∈ rest := List.get?_mem this
          simpa using hmem
    · simp only [hc, if_false]
      rw [ih]
      constructor
      · rintro ⟨i, j, hij, hi, hj⟩
        exact ⟨i + 1, j + 1, Nat.succ_lt_succ hij, hi, hj⟩
      · rintro ⟨i, j, hij, hi, hj⟩
        match i, j, hij with
        | 0, _, _ =>
          exact absurd (by simpa using hi) hc
        | i' + 1, j' + 1, h =>
          exact ⟨i', j', Nat.lt_of_succ_lt_succ h, hi, hj⟩

/-- No brace span means the interpretation step yields nothing. -/
theorem interpretResponse_eq_none {content : String}
    (h : hasBraceSpan content.data = false) : interpretResponse content = none := by
  unfold interpretResponse
  rw [extractBraceSpan_eq_none h]

/-! ### Claims -/

/-- Claim C3: a provider reply with no brace span yields a Failure on both
backends whose retained `raw_response` is the full original reply, and the
upload route issues no listing update for such a reply. -/
theorem C3_no_brace_failure_raw_retained (content : String)
    (h : hasBraceSpan content.data = false) :
    (∀ usage tTotal tApi,
      isFailure (analyzeImageOpenAI (.ok content usage tTotal tApi)) = true ∧
      rawResponseOf (analyzeImageOpenAI (.ok content usage tTotal tApi)) = some content) ∧
    (∀ prompt tTotal tApi,
      isFailure (analyzeImageGemini prompt (.ok content tTotal tApi)) = true ∧
      rawResponseOf (analyzeImageGemini prompt (.ok content tTotal tApi)) = some content) ∧
    (∀ (item : Item) (thumbOk dbOk : Bool) usage tTotal tApi,
      (uploadImage item thumbOk
          (some (analyzeImageOpenAI (.ok content usage tTotal tApi))) dbOk).updateCall
        = none) := by
  have hi := interpretResponse_eq_none h
  refine ⟨fun usage tTotal tApi => ?_, fun prompt tTotal tApi => ?_,
    fun item thumbOk dbOk usage tTotal tApi => ?_⟩
  · simp [analyzeImageOpenAI, hi, isFailure, rawResponseOf]
  · simp [analyzeImageGemini, hi, isFailure, rawResponseOf]
  · cases dbOk <;> simp [uploadImage, analyzeImageOpenAI, hi]

/-- Closed instance of C3 at a braceless reply. -/
theorem C3_witness :
    hasBraceSpan "Sorry, I cannot identify this item.".data = false ∧
    isFailure (analyzeImageOpenAI (.ok "Sorry, I cannot identify this item." none 7 4)) = true ∧
    rawResponseOf (analyzeImageOpenAI (.ok "Sorry, I cannot identify this item." none 7 4))
      = some "Sorry, I cannot identify this item." := by
  refine ⟨by decide, ?_, ?_⟩
  · exact ((C3_no_brace_failure_raw_retained "Sorry, I cannot identify this item."
      (by decide)).1 none 7 4).1
  · exact ((C3_no_brace_failure_raw_retained "Sorry, I cannot identify this item."
      (by decide)).1 none 7 4).2

/-- Claim C4 counterexample: the reply `\x7b"x": 1\x7d` parses, so the
interpreter returns a Success whose analysis has neither `title` nor
`estimated_price` — the validation the claim asserts does not happen. -/
theorem C4_counterexample :
    isFailure (analyzeImageOpenAI (.ok "\x7b\"x\": 1\x7d" none 5 3)) = false ∧
    outcomeAnalysis (analyzeImageOpenAI (.ok "\x7b\"x\": 1\x7d" none 5 3))
      = some (.obj [("x", .num 1 0)]) ∧
    jsonMember (.obj [("x", .num 1 0)]) "title" = none ∧
    jsonMember (.obj [("x", .num 1 0)]) "estimated_price" = none := by
  exact ⟨rfl, rfl, rfl, rfl⟩

/-- Claim C4 as amended: on both backends the interpreter produces a
Success exactly when the greedy brace span parses as JSON — a Failure
exactly when it does not — attaching the parsed value with no validation
of `title` or `estimated_price`. -/
theorem C4_amended_success_iff_span_parses (content prompt : String)
    (usage : Option (Nat × Nat)) (tTotal tApi : Nat) :
    outcomeAnalysis (analyzeImageOpenAI (.ok content usage tTotal tApi))
      = interpretResponse content ∧
    outcomeAnalysis (analyzeImageGemini prompt (.ok content tTotal tApi))
      = interpretResponse content ∧
    isFailure (analyzeImageOpenAI (.ok content usage tTotal tApi))
      = (interpretResponse content).isNone ∧
    isFailure (analyzeImageGemini prompt (.ok content tTotal tApi))
      = (interpretResponse content).isNone := by
  cases hi : interpretResponse content <;>
    simp [analyzeImageOpenAI, analyzeImageGemini, hi, outcomeAnalysis, isFailure]

/-- Claim C5 counterexample: a Gemini provider-call error produces a
result with no timing and no usage at all. -/
theorem C5_counterexample :
    carriesTimingAndUsage (analyzeImageGemini "" (.err "network error")) = false := by
  rfl

/-- Claim C5 as amended: Success results and OpenAI parse failures carry
full timing and usage; an OpenAI provider-call error carries only the
total duration (no provider-call duration, no usage); Gemini parse
failures and provider-call errors carry neither timing nor usage. -/
theorem C5_amended_timing_usage_by_path (content msg prompt : String)
    (usage : Option (Nat × Nat)) (tTotal tApi : Nat) :
    carriesTimingAndUsage (analyzeImageOpenAI (.ok content usage tTotal tApi)) = true ∧
    analyzeImageOpenAI (.err msg tTotal) = .failure msg none (some tTotal) none none ∧
    carriesTimingAndUsage (analyzeImageGemini prompt (.ok content tTotal tApi))
      = (interpretResponse content).isSome ∧
    (analyzeImageGemini prompt (.ok content tTotal tApi)
      = match interpretResponse content with
        | some a =>
          .success a ⟨tTotal, tApi⟩
            ⟨estimateTokens prompt.length, estimateTokens content.length,
              estimateTokens prompt.length + estimateTokens content.length⟩
        | none =>
          .failure "Could not parse AI response as JSON" (some content) none none none) ∧
    analyzeImageGemini prompt (.err msg) = .failure msg none none none none := by
  refine ⟨?_, rfl, ?_, ?_, rfl⟩ <;>
    cases hi : interpretResponse content <;>
      simp [analyzeImageOpenAI, analyzeImageGemini, hi, carriesTimingAndUsage]

/-- Claim C8: token usage on the Gemini backend (which supplies no native
counts) is the documented heuristic, `ceil(length / 4)` applied separately
to the outbound prompt and the returned text — in particular 400 and 120
characters give 100 and 30 tokens — reported as such by text generation
always and by image analysis on its usage-reporting path. -/
theorem C8_usage_heuristic (prompt content : String) (tTotal tApi : Nat) (n : Nat) :
    (estimateTokens n : Int) = ⌈(n : Rat) / 4⌉ ∧
    estimateTokens 400 = 100 ∧
    estimateTokens 120 = 30 ∧
    genUsage (generateDescriptionGemini prompt (.ok content tTotal tApi))
      = some ⟨estimateTokens prompt.length, estimateTokens content.length,
          estimateTokens prompt.length + estimateTokens content.length⟩ ∧
    reportedUsage (analyzeImageGemini prompt (.ok content tTotal tApi))
      = if (interpretResponse content).isSome then
          some ⟨estimateTokens prompt.length, estimateTokens content.length,
            estimateTokens prompt.length + estimateTokens content.length⟩
        else none := by
  refine ⟨?_, by decide, by decide, rfl, ?_⟩
  · have h1 : n ≤ 4 * ((n + 3) / 4) := by omega
    have h2 : 4 * ((n + 3) / 4) ≤ n + 3 := by omega
    have h4 : (0 : Rat) < 4 := by norm_num
    have hc : (4 : Rat) * (((n + 3) / 4 : Nat) : Rat) ≤ (n : Rat) + 3 := by exact_mod_cast h2
    have hd : (n : Rat) ≤ (4 : Rat) * (((n + 3) / 4 : Nat) : Rat) := by exact_mod_cast h1
    refine (Int.ceil_eq_iff.mpr ⟨?_, ?_⟩).symm
    · rw [lt_div_iff₀ h4]
      simp only [estimateTokens, Int.cast_natCast]
      linarith [hc]
    · rw [div_le_iff₀ h4]
      simp only [estimateTokens, Int.cast_natCast]
      linarith [hd]
  · cases hi : interpretResponse content <;>
      simp [analyzeImageGemini, hi, reportedUsage]

/-- Claim C1: on a successful analysis applied during upload, each of the
four listing fields is sent to `db.updateItem` with the AI-suggested value
exactly when its current value is the sentinel unset state; a field in any
other state does not appear in the update at all (and fields absent from
the update are untouched by the `UPDATE` statement). -/
theorem C1_reconcile_writes_iff_sentinel (item : Item) (a : Json) (t : Timing) (u : Usage)
    (thumbOk dbOk : Bool) :
    ((uploadImage item thumbOk (some (.success a t u)) dbOk).updateCall.bind ItemUpdates.title
      = if titleUnset item.title then some (jsonMember a "title") else none) ∧
    ((uploadImage item thumbOk (some (.success a t u)) dbOk).updateCall.bind
        ItemUpdates.description
      = if descriptionUnset item.description then some (jsonMember a "description") else none) ∧
    ((uploadImage item thumbOk (some (.success a t u)) dbOk).updateCall.bind ItemUpdates.price
      = if priceUnset item.price then some (jsonMember a "estimated_price") else none) ∧
    ((uploadImage item thumbOk (some (.success a t u)) dbOk).updateCall.bind ItemUpdates.category
      = if categoryUnset item.category then some (jsonMember a "category") else none) := by
  cases dbOk <;>
    by_cases h1 : titleUnset item.title <;>
    by_cases h2 : descriptionUnset item.description <;>
    by_cases h3 : priceUnset item.price <;>
    by_cases h4 : categoryUnset item.category <;>
      simp [uploadImage, reconcileUpdates, hasUpdates, h1, h2, h3, h4]

/-- Claim C2: with the `skipAI` flag set, the upload stores the asset and
creates the ImageAsset record (201) with no Provider Client invocation and
no reconciliation write, even when a provider is configured. -/
theorem C2_skipAI_skips_analysis (item : Item) (thumbOk aiConfigured : Bool) (r : AIResponse) :
    uploadImageSkipAI item thumbOk aiConfigured r true true
      = { status := 201, imageCreated := true, updateCall := none, aiAnalysis := none,
          originalKept := true, thumbKept := thumbOk, providerInvoked := false } := by
  cases aiConfigured <;> rfl

/-- Claim C6: a valid upload for an existing listing with no provider
configured succeeds with one ImageAsset created, a null `ai_analysis` in
the response, and no write to the listing. -/
theorem C6_upload_succeeds_without_provider (item : Item) (thumbOk : Bool) :
    uploadImage item thumbOk none true
      = { status := 201, imageCreated := true, updateCall := none, aiAnalysis := none,
          originalKept := true, thumbKept := thumbOk, providerInvoked := false } := by
  rfl

/-- Claim C7 counterexample: an upload whose ImageAsset database write
fails surfaces a 500 error with the derived thumbnail file still on disk
— the failure path deletes only the original upload. -/
theorem C7_counterexample :
    (uploadImage ⟨"New Item", none, 0, none⟩ true none false).status = 500 ∧
    (uploadImage ⟨"New Item", none, 0, none⟩ true none false).thumbKept = true ∧
    (uploadImage ⟨"New Item", none, 0, none⟩ true none false).originalKept = false := by
  exact ⟨rfl, rfl, rfl⟩

/-- Claim C7 as amended: when the upload fails after the files are
written, the original upload file is deleted before the error is surfaced
but an already-derived thumbnail is left in place; and a thumbnail
derivation failure is swallowed — the upload still succeeds and deletes
nothing. -/
theorem C7_amended_cleanup_original_only (item : Item) (thumbOk : Bool)
    (ai : Option AIResponse) :
    ((uploadImage item thumbOk ai false).status = 500 ∧
      (uploadImage item thumbOk ai false).originalKept = false ∧
      (uploadImage item thumbOk ai false).thumbKept = thumbOk) ∧
    ((uploadImage item false ai true).status = 201 ∧
      (uploadImage item false ai true).originalKept = true) := by
  rcases ai with _ | r
  · exact ⟨⟨rfl, rfl, rfl⟩, rfl, rfl⟩
  · rcases r with a | e
    · exact ⟨⟨rfl, rfl, rfl⟩, rfl, rfl⟩
    · exact ⟨⟨rfl, rfl, rfl⟩, rfl, rfl⟩

/-- Claim C9 counterexample: a `setProvider` switch interleaved with an
in-flight OpenAI analysis call changes the model name the call then uses
for its cost computation — the call does not behave as a single snapshot
of the configuration taken at call start. -/
theorem C9_counterexample :
    analyzeCallTrace ⟨.openai, "gpt-4o", some "sk-test", none⟩
        [⟨.gemini, some "gm-key", some "gemini-2.5-pro"⟩]
      = some ⟨.openai, "gpt-4o", some "sk-test", "gemini-2.5-pro"⟩ ∧
    (("gemini-2.5-pro" : String) == "gpt-4o") = false := by
  exact ⟨rfl, rfl⟩

/-- Claim C9 as amended: the provider, model and client used for the
provider request itself are read before the call's first suspension point
and therefore always equal the configuration at call start, whatever
settings updates run concurrently; only the post-call cost computation
re-reads the mutable model name. -/
theorem C9_amended_request_uses_snapshot (s0 : SvcState) (updates : List SettingsUpdate) :
    (analyzeCallTrace s0 updates).map
        (fun t => (t.requestProvider, t.requestModel, t.requestClient))
      = if svcIsInitialized s0 then some (s0.provider, s0.model, svcClientOf s0) else none := by
  by_cases h : svcIsInitialized s0 <;> simp [analyzeCallTrace, h]

/-- Claim C10: when every one of the four listing fields already holds a
non-sentinel value, a successful analysis leads to no `db.updateItem`
call at all, so the listing row — `updated_at` included — is untouched. -/
theorem C10_no_update_when_all_fields_set (item : Item) (a : Json) (t : Timing) (u : Usage)
    (thumbOk dbOk : Bool)
    (h1 : titleUnset item.title = false)
    (h2 : descriptionUnset item.description = false)
    (h3 : priceUnset item.price = false)
    (h4 : categoryUnset item.category = false) :
    (uploadImage item thumbOk (some (.success a t u)) dbOk).updateCall = none := by
  cases dbOk <;> simp [uploadImage, reconcileUpdates, hasUpdates, h1, h2, h3, h4]

/-- Closed instance of C10 at a fully user-filled listing. -/
theorem C10_witness :
    titleUnset "Vintage Lamp" = false ∧
    descriptionUnset (some "A nice lamp.") = false ∧
    priceUnset 12 = false ∧
    categoryUnset (some "Furniture") = false ∧
    (uploadImage ⟨"Vintage Lamp", some "A nice lamp.", 12, some "Furniture"⟩ true
        (some (.success (.obj [("title", .str "Other")]) ⟨9, 6⟩ ⟨50, 20, 70⟩)) true).updateCall
      = none := by
  refine ⟨rfl, rfl, rfl, rfl, ?_⟩
  exact C10_no_update_when_all_fields_set
    ⟨"Vintage Lamp", some "A nice lamp.", 12, some "Furniture"⟩
    (.obj [("title", .str "Other")]) ⟨9, 6⟩ ⟨50, 20, 70⟩ true true rfl rfl rfl rfl

end GarageSale
